import Mathlib

/-!
Verification development for the `asuswrt_merlin` Home Assistant integration
(repository `DigitallyRefined/ha-asuswrt_merlin`).

The Python sources under `custom_components/asuswrt_merlin/` are shallowly
embedded below.  Conventions of the embedding:

* timestamps and byte counters are modelled as `Int` (seconds / bytes);
  Python `datetime` arithmetic becomes integer subtraction of seconds;
* Python `float` results (GB totals, Mbps rates) are modelled as exact
  rationals `ℚ`; the claims under study concern the shape of the formulas
  and the control flow, not IEEE rounding;
* fallible Python operations are modelled with `Option` / explicit error
  branches; an exception raised by a remote command is `none`;
* the string operations used by the parsers (`str.split()`, `str.strip()`,
  `str.replace`, `str.upper`, `str.startswith`, splitting on newlines) are
  implemented structurally over `List Char` so that every definition is
  executable and kernel-evaluable; each models the documented Python
  semantics (`split()` with no argument splits on runs of whitespace and
  never yields empty tokens, `strip()` removes leading and trailing
  whitespace, ...).

`ssh_client.py` in the repository does not define `get_wan_counters` or
`ping_ips`, although `coordinator.py` calls both; those two operations are
modelled from the specification and are marked as such in their doc
comments.
-/

namespace AsusWrtMerlin

/-! ## Python string primitives, modelled over `List Char` -/

/-- Helper for `pySplit`: walk the characters, accumulating the current
token in reverse; whitespace ends a token, runs of whitespace and edges
produce no empty tokens (the semantics of Python `str.split()` with no
argument). -/
def splitWsAux : List Char → List Char → List String
  | [], acc => if acc.isEmpty then [] else [String.mk acc.reverse]
  | c :: cs, acc =>
    if c.isWhitespace then
      if acc.isEmpty then splitWsAux cs []
      else String.mk acc.reverse :: splitWsAux cs []
    else splitWsAux cs (c :: acc)

/-- Python `s.split()` (no argument): split on runs of whitespace,
discarding leading and trailing whitespace. -/
def pySplit (s : String) : List String := splitWsAux s.data []

/-- Python `s.strip()`: remove leading and trailing whitespace. -/
def pyStrip (s : String) : String :=
  String.mk (((s.data.dropWhile Char.isWhitespace).reverse.dropWhile
      Char.isWhitespace).reverse)

/-- Helper for `pySplitLines`: split the character list at each newline. -/
def splitLinesAux : List Char → List Char → List String
  | [], acc => [String.mk acc.reverse]
  | c :: cs, acc =>
    if c = '\n' then String.mk acc.reverse :: splitLinesAux cs []
    else splitLinesAux cs (c :: acc)

/-- Python `s.split(chr(10))`: split on newline characters; adjacent
newlines yield empty strings, exactly one string more than the number of
newlines. -/
def pySplitLines (s : String) : List String := splitLinesAux s.data []

/-- Python `s.replace(":", "_")` for the single-character pattern used in
the sources: replace every colon by an underscore. -/
def pyReplaceColonUnderscore (s : String) : String :=
  String.mk (s.data.map (fun c => if c = ':' then '_' else c))

/-- Python `s.upper()` restricted to ASCII, which is all the sources feed
it (MAC addresses). -/
def pyUpper (s : String) : String := String.mk (s.data.map Char.toUpper)

/-- Python `s.startswith(p)`. -/
def pyStartsWith (s p : String) : Bool := p.data.isPrefixOf s.data

/-- Digit-string to number, helper for `pyToNat`. -/
def pyToNatAux : List Char → Nat → Option Nat
  | [], acc => some acc
  | c :: cs, acc =>
    if c.isDigit then pyToNatAux cs (acc * 10 + (c.toNat - 48)) else none

/-- Python `int(s)` for a non-negative decimal literal: `some` number when
every character is a digit and the string is non-empty, otherwise `none`
(modelling `int(s)` raising `ValueError`). -/
def pyToNat (s : String) : Option Nat :=
  if s.data.isEmpty then none else pyToNatAux s.data 0

/-! ## Constants (`const.py`) -/

/-- Constant `DOMAIN` from `const.py`. -/
def DOMAIN : String := "asuswrt_merlin"

/-- Constant `CMD_ARP` from `const.py`. -/
def CMD_ARP : String := "cat /proc/net/arp"

/-- Constant `CMD_DEVICES` from `const.py`. -/
def CMD_DEVICES : String := "cat /var/lib/misc/dnsmasq.leases"

/-- Constant `CMD_WAN_IFNAME` from `const.py`. -/
def CMD_WAN_IFNAME : String := "nvram get wan_ifname"

/-- Constant `CMD_PROC_NET_DEV` from `const.py`. -/
def CMD_PROC_NET_DEV : String := "cat /proc/net/dev"

/-! ## Data model -/

/-- A record produced by the two table parsers in `ssh_client.py`
(`_parse_dhcp_leases` and `_parse_arp_table`): the dict
`{mac, ip, hostname}`. -/
structure DhcpRecord where
  mac : String
  ip : String
  hostname : String
deriving DecidableEq, Repr

/-- A device dict as built by `get_connected_devices` in `ssh_client.py`:
`{mac, hostname, ip, is_connected, last_activity}`.  The freshness
timestamp (Python key `last_activity`, carried forward by the coordinator
under the key `last_seen`) is an optional time in seconds. -/
structure Device where
  mac : String
  hostname : String
  ip : String
  is_connected : Bool
  last_activity : Option Int
deriving DecidableEq, Repr

/-! ## Table parsers (`ssh_client.py`) -/

/-- Body of the per-line loop of `_parse_dhcp_leases`
(`ssh_client.py` lines 177-193): skip blank lines; split the line on
whitespace; require at least 4 fields `timestamp mac ip hostname ...`;
when the hostname field is empty, `"*"`, or blank, synthesize
`device_<mac with colons replaced by underscores>`. -/
def parse_lease_line (line : String) : Option DhcpRecord :=
  if pyStrip line = "" then none
  else if 4 ≤ (pySplit line).length then
    some { mac := (pySplit line)[1]!
           ip := (pySplit line)[2]!
           hostname :=
             if (pySplit line)[3]! = "" ∨ (pySplit line)[3]! = "*" ∨
                 pyStrip (pySplit line)[3]! = "" then
               "device_" ++ pyReplaceColonUnderscore (pySplit line)[1]!
             else (pySplit line)[3]! }
  else none

/-- Function `_parse_dhcp_leases` of `ssh_client.py`: strip the output,
split into lines, parse each line, skipping malformed ones. -/
def _parse_dhcp_leases (output : String) : List DhcpRecord :=
  (pySplitLines (pyStrip output)).filterMap parse_lease_line

/-- Body of the per-line loop of `_parse_arp_table`
(`ssh_client.py` lines 202-213): skip blank lines and the header line
starting with `IP address`; require at least 6 fields
`ip hw-type flags hw-address mask device` with the flags field equal to
the reachable code `0x2`. -/
def parse_arp_line (line : String) : Option DhcpRecord :=
  if pyStrip line = "" ∨ pyStartsWith line "IP address" then none
  else if 6 ≤ (pySplit line).length ∧ (pySplit line)[2]! = "0x2" then
    some { ip := (pySplit line)[0]!
           mac := (pySplit line)[3]!
           hostname := "device_" ++ pyReplaceColonUnderscore (pySplit line)[3]! }
  else none

/-- Function `_parse_arp_table` of `ssh_client.py`. -/
def _parse_arp_table (output : String) : List DhcpRecord :=
  (pySplitLines (pyStrip output)).filterMap parse_arp_line

/-! ## Device merge and classify (`ssh_client.py`, `get_connected_devices`) -/

/-- The merge loop of `get_connected_devices` (`ssh_client.py` lines
138-161): one output device per DHCP record, with the MAC uppercased,
`is_connected` true exactly when some ARP record has the same uppercased
MAC, and `last_activity` set to now for connected devices and to `none`
for the rest. -/
def merge_devices (dhcp_devices arp_devices : List DhcpRecord) (now : Int) :
    List Device :=
  dhcp_devices.map (fun dhcp_device =>
    let mac := pyUpper dhcp_device.mac
    let is_conn := arp_devices.any (fun arp_device => pyUpper arp_device.mac = mac)
    { mac := mac
      hostname := dhcp_device.hostname
      ip := dhcp_device.ip
      is_connected := is_conn
      last_activity := if is_conn then some now else none })

/-! ## Remote session model (`ssh_client.py`, `coordinator.py`) -/

/-- Observable session events of one cycle: connecting, executing a
command, issuing the reachability probe, disconnecting. -/
inductive SSHEvent
  | connect : SSHEvent
  | exec : String → SSHEvent
  | ping : List String → SSHEvent
  | disconnect : SSHEvent
deriving DecidableEq, Repr

/-- Environment of one cycle: whether `connect` succeeds, and for each
command either its standard output (`some`) or `none` when executing that
command raises. -/
structure SSHWorld where
  connectOk : Bool
  execOut : String → Option String

/-- Function `_execute_command` of `ssh_client.py`: raises (`none`) when
no session is open, otherwise behaves as the environment dictates. -/
def _execute_command (w : SSHWorld) (connected : Bool) (cmd : String) :
    Option String :=
  if connected then w.execOut cmd else none

/-- The WAN byte-counter sample: the Python dict
`{"rx_bytes": ..., "tx_bytes": ...}` consumed by `_update_wan_metrics`
via `counters.get`, each key possibly absent. -/
structure WanCounters where
  rx_bytes : Option Int
  tx_bytes : Option Int
deriving DecidableEq, Repr

/-- Function `get_connected_devices` of `ssh_client.py`: run the DHCP
lease dump, then the ARP dump, parse and merge; any exception makes it
return the empty list (its own `try`/`except`).  The second component is
the list of session events issued (a command counts as issued even when
it raises). -/
def get_connected_devices (w : SSHWorld) (connected : Bool) (now : Int) :
    List Device × List SSHEvent :=
  match _execute_command w connected CMD_DEVICES with
  | none => ([], [SSHEvent.exec CMD_DEVICES])
  | some dhcp_output =>
    match _execute_command w connected CMD_ARP with
    | none => ([], [SSHEvent.exec CMD_DEVICES, SSHEvent.exec CMD_ARP])
    | some arp_output =>
      (merge_devices (_parse_dhcp_leases dhcp_output) (_parse_arp_table arp_output) now,
       [SSHEvent.exec CMD_DEVICES, SSHEvent.exec CMD_ARP])

/-- Modelled from the spec: the WAN-counter parser is part of
`get_wan_counters`, which `coordinator.py` calls on the SSH client but
which is missing from the `ssh_client.py` in `src/`.  Per the spec it
"extracts the named network interface receive/transmit byte columns from
the device-statistics text; returns `None` if the interface line is not
found" and never raises.  A `/proc/net/dev` data row reads
`<ifname>: rx_bytes rx_packets ... (8 receive columns) tx_bytes ...`,
so the receive byte column is field 0 and the transmit byte column is
field 8 after the interface label. -/
def parse_wan_counters (ifname : String) (output : String) : Option WanCounters :=
  let row := (pySplitLines output).map pyStrip
  match row.find? (fun l => pyStartsWith l (ifname ++ ":")) with
  | none => none
  | some l =>
    let fields := pySplit (String.mk (l.data.drop (ifname.data.length + 1)))
    if 9 ≤ fields.length then
      match pyToNat fields[0]!, pyToNat fields[8]! with
      | some rx, some tx => some { rx_bytes := some (rx : Int), tx_bytes := some (tx : Int) }
      | _, _ => none
    else none

/-- Modelled from the spec: `get_wan_counters` is called by
`_get_data_from_router` (`coordinator.py` line 211) but missing from the
`ssh_client.py` in `src/`.  Per the spec it reads the WAN interface name
via the router configuration query, runs the device-statistics dump in
the same open session, and parses that interface row; command failures
are signalled upward (outer `none`), an absent interface row yields a
successful `some none`. -/
def get_wan_counters (w : SSHWorld) (connected : Bool) :
    Option (Option WanCounters) × List SSHEvent :=
  match _execute_command w connected CMD_WAN_IFNAME with
  | none => (none, [SSHEvent.exec CMD_WAN_IFNAME])
  | some ifname_output =>
    match _execute_command w connected CMD_PROC_NET_DEV with
    | none => (none, [SSHEvent.exec CMD_WAN_IFNAME, SSHEvent.exec CMD_PROC_NET_DEV])
    | some stats_output =>
      (some (parse_wan_counters (pyStrip ifname_output) stats_output),
       [SSHEvent.exec CMD_WAN_IFNAME, SSHEvent.exec CMD_PROC_NET_DEV])

/-- The ping-target selection of `_get_data_from_router` (`coordinator.py`
lines 243-250): the IPs of devices currently connected, with a non-empty
IP, whose MAC is an enabled tracker unique id.  The probe itself
(`ping_ips`, missing from `src/`; modelled from the spec as a
reachability probe whose failure is fully absorbed) is recorded as a
single event when the list is non-empty. -/
def ping_events (enabled_macs : List String) (devices : List Device) :
    List SSHEvent :=
  let ips := devices.filterMap (fun d =>
    if d.is_connected ∧ d.ip ≠ "" ∧ enabled_macs.contains d.mac then some d.ip
    else none)
  if ips.isEmpty then [] else [SSHEvent.ping ips]

/-- The `try`/`except` part of `_get_data_from_router` (`coordinator.py`
lines 208-265), without the `finally`: connect (a failed attempt raises
`ConnectionError`, caught by the `except` that returns `([], None)`),
fetch devices and WAN counters in the single open session, optionally
issue the throttled reachability probe (whose failure is absorbed and
which leaves the returned snapshot untouched), and degrade to
`([], None)` when an exception escapes the sequence. -/
def _get_data_from_router_body (w : SSHWorld) (now : Int) (should_ping : Bool)
    (enabled_macs : List String) :
    (List Device × Option WanCounters) × List SSHEvent :=
  if w.connectOk then
    let dres := get_connected_devices w true now
    match get_wan_counters w true with
    | (none, ev2) => (([], none), SSHEvent.connect :: (dres.2 ++ ev2))
    | (some wan_stats, ev2) =>
      ((dres.1, wan_stats),
       SSHEvent.connect :: (dres.2 ++ ev2 ++
         (if should_ping then ping_events enabled_macs dres.1 else [])))
  else (([], none), [SSHEvent.connect])

/-- Function `_get_data_from_router` of `coordinator.py` (lines 204-267):
run the acquisition body, then disconnect unconditionally in the
`finally` cleanup step (so the trace always ends with the disconnect
event).  `should_ping` stands for the once-per-five-minutes throttle
decision (lines 214-222), which depends on mutable coordinator state
outside this function.  The first component is the returned
`(devices, wan_stats)` pair, the second the full event trace of the
cycle. -/
def _get_data_from_router (w : SSHWorld) (now : Int) (should_ping : Bool)
    (enabled_macs : List String) :
    (List Device × Option WanCounters) × List SSHEvent :=
  ((_get_data_from_router_body w now should_ping enabled_macs).1,
   (_get_data_from_router_body w now should_ping enabled_macs).2 ++
     [SSHEvent.disconnect])

/-! ## WAN metrics engine (`coordinator.py`, `_update_wan_metrics`) -/

/-- The WAN-related mutable attributes of
`AsusWrtMerlinDataUpdateCoordinator` (`coordinator.py` lines 61-69). -/
structure WanState where
  _last_wan_rx_bytes : Option Int
  _last_wan_tx_bytes : Option Int
  _last_wan_sample_time : Option Int
  wan_total_download_gb : Option ℚ
  wan_total_upload_gb : Option ℚ
  wan_download_mbps : Option ℚ
  wan_upload_mbps : Option ℚ
  wan_last_rx_delta_bytes : Option Int
  wan_last_tx_delta_bytes : Option Int
deriving DecidableEq, Repr

/-- The initial WAN state set by `__init__` (`coordinator.py` lines
61-69): every attribute `None`. -/
def initWanState : WanState :=
  { _last_wan_rx_bytes := none
    _last_wan_tx_bytes := none
    _last_wan_sample_time := none
    wan_total_download_gb := none
    wan_total_upload_gb := none
    wan_download_mbps := none
    wan_upload_mbps := none
    wan_last_rx_delta_bytes := none
    wan_last_tx_delta_bytes := none }

/-- Method `_update_wan_metrics` of `coordinator.py` (lines 338-375) as a
state transformer.  Early return when either counter is missing; totals
in binary GB; deltas and rates only when the previous triple exists and
the elapsed time is strictly positive; the new sample always becomes the
stored baseline afterwards; the exposed deltas fall back to 0. -/
def _update_wan_metrics (s : WanState) (counters : WanCounters) (now : Int) :
    WanState :=
  match counters.rx_bytes, counters.tx_bytes with
  | some rx_bytes, some tx_bytes =>
    let s0 := { s with
      wan_total_download_gb := some ((rx_bytes : ℚ) / 1024 ^ 3)
      wan_total_upload_gb := some ((tx_bytes : ℚ) / 1024 ^ 3) }
    let step : WanState × Option Int × Option Int :=
      match s0._last_wan_rx_bytes, s0._last_wan_tx_bytes,
            s0._last_wan_sample_time with
      | some last_rx, some last_tx, some last_time =>
        let elapsed : Int := now - last_time
        if 0 < elapsed then
          let rx_delta := max 0 (rx_bytes - last_rx)
          let tx_delta := max 0 (tx_bytes - last_tx)
          ({ s0 with
              wan_download_mbps :=
                some ((rx_delta : ℚ) * 8 / 1000000 / (elapsed : ℚ))
              wan_upload_mbps :=
                some ((tx_delta : ℚ) * 8 / 1000000 / (elapsed : ℚ)) },
           some rx_delta, some tx_delta)
        else (s0, none, none)
      | _, _, _ => (s0, none, none)
    { step.1 with
      _last_wan_rx_bytes := some rx_bytes
      _last_wan_tx_bytes := some tx_bytes
      _last_wan_sample_time := some now
      wan_last_rx_delta_bytes := some (step.2.1.getD 0)
      wan_last_tx_delta_bytes := some (step.2.2.getD 0) }
  | _, _ => s

/-- A run of the WAN metrics engine from the freshly initialized
coordinator: one `_update_wan_metrics` call per cycle that had a sample,
each with its counters and wall-clock time. -/
def runWanUpdates (ticks : List (WanCounters × Int)) : WanState :=
  ticks.foldl (fun s t => _update_wan_metrics s t.1 t.2) initWanState

/-! ## Period accumulators (`sensor.py`, `_AccumulatingWanCounterSensor`) -/

/-- A calendar date, the part of the wall clock that
`_current_period_marker` reads. -/
structure Date where
  year : Nat
  month : Nat
  day : Nat
deriving DecidableEq, Repr

/-- Zero-padding to two digits, as in `strftime` fields `%m` and `%d`. -/
def pad2 (n : Nat) : String :=
  if n < 10 then "0" ++ toString n else toString n

/-- Method `_current_period_marker` of `sensor.py` (lines 336-343):
`YYYY-MM-DD` for daily, `YYYY-MM` for monthly, `YYYY` otherwise
(yearly). -/
def _current_period_marker (period : String) (today : Date) : String :=
  if period = "daily" then
    toString today.year ++ "-" ++ pad2 today.month ++ "-" ++ pad2 today.day
  else if period = "monthly" then
    toString today.year ++ "-" ++ pad2 today.month
  else
    toString today.year

/-- The mutable accumulator attributes of `_AccumulatingWanCounterSensor`
(`sensor.py` lines 298-300): the running value in GB and the stored
period marker, each possibly unset. -/
structure AccumState where
  _value_gb : Option ℚ
  _last_period_marker : Option String
deriving DecidableEq, Repr

/-- Method `_maybe_reset_for_new_period` of `sensor.py` (lines 345-349):
when the stored marker differs from the current one, reset the value to 0
and replace the marker. -/
def _maybe_reset_for_new_period (s : AccumState) (marker : String) :
    AccumState :=
  if s._last_period_marker ≠ some marker then
    { _value_gb := some 0, _last_period_marker := some marker }
  else s

/-- Method `_handle_coordinator_update` of `sensor.py` (lines 351-364):
reset on period rollover, then add the latest delta (download sensors read
the rx delta, upload sensors the tx delta; a missing delta counts as 0)
converted to binary GB. -/
def _handle_coordinator_update (s : AccumState) (period direction : String)
    (today : Date) (wan_last_rx_delta_bytes wan_last_tx_delta_bytes : Option Int) :
    AccumState :=
  let marker := _current_period_marker period today
  let s1 := _maybe_reset_for_new_period s marker
  let delta_bytes : Int :=
    if direction = "download" then wan_last_rx_delta_bytes.getD 0
    else wan_last_tx_delta_bytes.getD 0
  { s1 with
    _value_gb := some (s1._value_gb.getD 0 + (delta_bytes : ℚ) / 1024 ^ 3) }

/-! ## Presence tracker pruning (`coordinator.py`, `_async_prune_stale_entities`) -/

/-- An entity registry entry as seen through
`_iter_our_device_tracker_entries`: entity id, unique id (the MAC),
domain and platform. -/
structure RegEntry where
  entity_id : String
  unique_id : String
  domain : String
  platform : String
deriving DecidableEq, Repr

/-- The prune threshold `timedelta(days=30)` (`coordinator.py` line 53),
in seconds. -/
def prune_threshold_seconds : Int := 30 * 86400

/-- Method `_iter_our_device_tracker_entries` of `coordinator.py` (lines
81-95): of the registry entries for this config entry, keep the
device-tracker entities of this platform. -/
def _iter_our_device_tracker_entries (registry : List RegEntry) :
    List RegEntry :=
  registry.filter (fun e => e.domain = "device_tracker" ∧ e.platform = DOMAIN)

/-- The coordinator state touched by pruning: the entity registry (scoped
to this config entry) and the in-memory presence state
(`known_devices`, `mac_hostname`, `mac_last_seen`). -/
structure CoordinatorPruneState where
  registry : List RegEntry
  known_devices : List String
  mac_hostname : List (String × String)
  mac_last_seen : List (String × Int)
deriving DecidableEq, Repr

/-- Whether one registry entry counts as stale in
`_async_prune_stale_entities`: its MAC has no stored last-seen timestamp,
or one strictly older than the cutoff (`last_seen is None or
last_seen < cutoff`, `coordinator.py` line 322). -/
def prune_stale (mac_last_seen : List (String × Int)) (cutoff : Int)
    (e : RegEntry) : Bool :=
  match mac_last_seen.lookup e.unique_id with
  | none => true
  | some t => t < cutoff

/-- The per-entity body of the pruning loop (`coordinator.py` lines
316-334): skip entries with an empty unique id; a stale entry is removed
from the registry, its MAC discarded from `known_devices` and popped from
`mac_hostname`.  `fails` models `registry.async_remove` raising for a
given entity id; the per-entity `except` then skips the remainder of that
entity body and continues with the next entity. -/
def pruneStep (fails : String → Bool) (mac_last_seen : List (String × Int))
    (cutoff : Int) (acc : CoordinatorPruneState) (e : RegEntry) :
    CoordinatorPruneState :=
  if e.unique_id = "" then acc
  else if prune_stale mac_last_seen cutoff e then
    if fails e.entity_id then acc
    else
      { acc with
        registry := acc.registry.filter (fun r => r.entity_id ≠ e.entity_id)
        known_devices := acc.known_devices.filter (fun m => m ≠ e.unique_id)
        mac_hostname := acc.mac_hostname.filter (fun p => p.1 ≠ e.unique_id) }
  else acc

/-- Method `_async_prune_stale_entities` of `coordinator.py` (lines
310-336): with `cutoff = now - threshold`, fold the per-entity body over
this platform device-tracker entries (the iteration list is computed from
the registry before any removal). -/
def _async_prune_stale_entities (fails : String → Bool)
    (st : CoordinatorPruneState) (now : Int) : CoordinatorPruneState :=
  (_iter_our_device_tracker_entries st.registry).foldl
    (pruneStep fails st.mac_last_seen (now - prune_threshold_seconds)) st

/-! ## Device tracker presence (`device_tracker.py`, `is_connected`) -/

/-- Property `is_connected` of `AsusWrtMerlinDeviceTracker`
(`device_tracker.py` lines 175-200) as a function of the coordinator data
list, the tracked MAC, the wall clock, and the configured grace period
(`consider_home` / `seconds_until_away`): the first device record whose
MAC matches decides; it is Home when currently connected, else when its
freshness timestamp exists and is strictly less than the grace period
old; no record or no timestamp means Away. -/
def tracker_is_connected (data : List Device) (mac : String) (now grace : Int) :
    Bool :=
  match data.find? (fun device => device.mac = mac) with
  | none => false
  | some device =>
    if device.is_connected then true
    else
      match device.last_activity with
      | some last_activity => now - last_activity < grace
      | none => false

/-! ## Concrete cycle environments used by the witnesses -/

/-- A fully healthy cycle environment: connect succeeds and all four
commands return the fixtures from the specification end-to-end example. -/
def exampleWorld : SSHWorld :=
  { connectOk := true
    execOut := fun c =>
      if c = CMD_DEVICES then some "0 AA:BB:CC:DD:EE:FF 10.0.0.5 laptop x"
      else if c = CMD_ARP then
        some "IP address HW type Flags HW address Mask Device\n10.0.0.5 0x1 0x2 aa:bb:cc:dd:ee:ff * br0"
      else if c = CMD_WAN_IFNAME then some "eth0\n"
      else if c = CMD_PROC_NET_DEV then
        some "eth0: 1000 1 0 0 0 0 0 0 500 1 0 0 0 0 0 0"
      else none }

/-- A cycle environment in which executing the DHCP lease dump raises
while every other command still succeeds. -/
def dhcpFailWorld : SSHWorld :=
  { connectOk := true
    execOut := fun c =>
      if c = CMD_DEVICES then none
      else if c = CMD_ARP then
        some "IP address HW type Flags HW address Mask Device\n10.0.0.5 0x1 0x2 aa:bb:cc:dd:ee:ff * br0"
      else if c = CMD_WAN_IFNAME then some "eth0\n"
      else if c = CMD_PROC_NET_DEV then
        some "eth0: 1000 1 0 0 0 0 0 0 500 1 0 0 0 0 0 0"
      else none }

/-- A one-entity coordinator state whose only device was last seen 31
days before the pruning instant `pruneNow`. -/
def staleState : CoordinatorPruneState :=
  { registry := [{ entity_id := "device_tracker.laptop"
                   unique_id := "AA:BB:CC:DD:EE:FF"
                   domain := "device_tracker"
                   platform := DOMAIN }]
    known_devices := ["AA:BB:CC:DD:EE:FF"]
    mac_hostname := [("AA:BB:CC:DD:EE:FF", "laptop")]
    mac_last_seen := [("AA:BB:CC:DD:EE:FF", 0)] }

/-- The pruning instant for `staleState`: 31 days after the stored
last-seen timestamp. -/
def pruneNow : Int := 31 * 86400


/-- The WAN state after two samples: counters 0 at time 0, then counters
1000000 at time 1 (so rates are defined after the second sample). -/
def c7State : WanState :=
  _update_wan_metrics (_update_wan_metrics initWanState
    { rx_bytes := some 0, tx_bytes := some 0 } 0)
    { rx_bytes := some 1000000, tx_bytes := some 1000000 } 1

/-- A WAN state holding a stored baseline sample: counters 1000 / 500
taken at time 0. -/
def wanBaselineState : WanState :=
  { initWanState with
    _last_wan_rx_bytes := some 1000
    _last_wan_tx_bytes := some 500
    _last_wan_sample_time := some 0 }

/-- A one-entity coordinator state whose only device was last seen one
day before the pruning instant `pruneNow`. -/
def freshState : CoordinatorPruneState :=
  { registry := [{ entity_id := "device_tracker.phone"
                   unique_id := "CC:DD:EE:FF:00:11"
                   domain := "device_tracker"
                   platform := DOMAIN }]
    known_devices := ["CC:DD:EE:FF:00:11"]
    mac_hostname := [("CC:DD:EE:FF:00:11", "phone")]
    mac_last_seen := [("CC:DD:EE:FF:00:11", pruneNow - 86400)] }

/-- The registry entry of the stale device in `staleState`. -/
def staleEntry : RegEntry :=
  { entity_id := "device_tracker.laptop"
    unique_id := "AA:BB:CC:DD:EE:FF"
    domain := "device_tracker"
    platform := DOMAIN }

/-- A concrete DHCP lease record. -/
def exLease : DhcpRecord :=
  { mac := "aa:bb:cc:dd:ee:ff", ip := "10.0.0.5", hostname := "laptop" }

/-- A concrete reachable ARP record for the same MAC as `exLease`. -/
def exArp : DhcpRecord :=
  { mac := "aa:bb:cc:dd:ee:ff", ip := "10.0.0.5",
    hostname := "device_aa_bb_cc_dd_ee_ff" }

/-- The device produced by merging `exLease` with `exArp` at time 100. -/
def exDevice : Device :=
  { mac := "AA:BB:CC:DD:EE:FF", hostname := "laptop", ip := "10.0.0.5",
    is_connected := true, last_activity := some 100 }

/-- A device record that is not currently connected but was seen at time
10. -/
def c2Device : Device :=
  { mac := "AA:BB:CC:DD:EE:FF", hostname := "laptop", ip := "10.0.0.5",
    is_connected := false, last_activity := some 10 }

/-! ## Claim theorems, counterexamples and witnesses -/


/-- Claim C10: for every DHCP lease line with at least 4 fields whose
hostname field is missing, equal to `"*"`, or blank, the parsed record
hostname equals `device_<MAC with colons replaced by underscores>`; for
every other such line the hostname field is kept as-is (and the MAC and
IP fields are taken verbatim). -/
theorem claim_C10_hostname_synthesis (line : String)
    (hne : pyStrip line ≠ "") (h4 : 4 ≤ (pySplit line).length) :
    ∃ r : DhcpRecord, parse_lease_line line = some r ∧
      r.mac = (pySplit line)[1]! ∧ r.ip = (pySplit line)[2]! ∧
      (((pySplit line)[3]! = "" ∨ (pySplit line)[3]! = "*" ∨
          pyStrip (pySplit line)[3]! = "" →
        r.hostname = "device_" ++ pyReplaceColonUnderscore (pySplit line)[1]!) ∧
       (¬((pySplit line)[3]! = "" ∨ (pySplit line)[3]! = "*" ∨
          pyStrip (pySplit line)[3]! = "") →
        r.hostname = (pySplit line)[3]!)) := by
  unfold parse_lease_line
  rw [if_neg hne, if_pos h4]
  by_cases hc : (pySplit line)[3]! = "" ∨ (pySplit line)[3]! = "*" ∨
      pyStrip (pySplit line)[3]! = ""
  · exact ⟨_, by rw [if_pos hc], rfl, rfl, fun _ => rfl, fun h => absurd hc h⟩
  · exact ⟨_, by rw [if_neg hc], rfl, rfl, fun h => absurd h hc, fun _ => rfl⟩

/-- Claim C4: for every device returned by the merge step,
`is_connected` is true if and only if an ARP record with the same
uppercased MAC exists in that cycle, and every returned device
originates from a DHCP lease record (ARP-only entries are never
reported). -/
theorem claim_C4_merge_invariant (dhcp arp : List DhcpRecord) (now : Int)
    (d : Device) (hd : d ∈ merge_devices dhcp arp now) :
    (d.is_connected = true ↔ ∃ a ∈ arp, pyUpper a.mac = d.mac) ∧
    (∃ r ∈ dhcp, d.mac = pyUpper r.mac ∧ d.hostname = r.hostname ∧
      d.ip = r.ip) := by
  unfold merge_devices at hd
  simp only [List.mem_map] at hd
  obtain ⟨r, hr, rfl⟩ := hd
  refine ⟨?_, r, hr, rfl, rfl, rfl⟩
  simp [List.any_eq_true]

/-- Claim C2: for a tracked device found in the cycle data, presence is
Home if and only if the device is currently reachable or now minus its
freshness timestamp is strictly less than the configured grace period;
at exactly the grace boundary the device is Away (the Home interval is
closed-open). -/
theorem claim_C2_presence_grace (data : List Device) (mac : String)
    (now grace : Int) (d : Device)
    (hfind : data.find? (fun device => device.mac = mac) = some d) :
    (tracker_is_connected data mac now grace = true ↔
      (d.is_connected = true ∨
        ∃ la, d.last_activity = some la ∧ now - la < grace)) ∧
    (d.is_connected = false → d.last_activity = some (now - grace) →
      tracker_is_connected data mac now grace = false) := by
  unfold tracker_is_connected
  rw [hfind]
  obtain ⟨dm, dh, di, dc, dla⟩ := d
  cases dc <;> rcases dla with _ | la <;> simp <;> omega

/-- Claim C5: for every period accumulator, on a cycle where the current
calendar period marker differs from the stored one, the value is reset
to 0 and the marker replaced before the delta is added, so the
post-update value equals exactly the current cycle delta converted to
binary GB. -/
theorem claim_C5_period_rollover (s : AccumState) (period direction : String)
    (today : Date) (rxd txd : Option Int)
    (hroll : s._last_period_marker ≠ some (_current_period_marker period today)) :
    (_handle_coordinator_update s period direction today rxd txd)._value_gb =
      some (((if direction = "download" then rxd.getD 0 else txd.getD 0 : Int) : ℚ)
        / 1024 ^ 3) ∧
    (_handle_coordinator_update s period direction today rxd txd)._last_period_marker =
      some (_current_period_marker period today) := by
  simp only [_handle_coordinator_update, _maybe_reset_for_new_period]
  rw [if_pos hroll]
  simp

/-- Claim C8: the WAN metrics update mutates no stored WAN state when
either counter is missing from the sample (the state is returned
unchanged), and when both are present the stored
`previous_rx`/`previous_tx`/`previous_sample_time` triple advances
atomically to the new sample values. -/
theorem claim_C8_wan_frame (s : WanState) (counters : WanCounters) (now : Int) :
    ((counters.rx_bytes = none ∨ counters.tx_bytes = none) →
      _update_wan_metrics s counters now = s) ∧
    (∀ rx tx : Int, counters.rx_bytes = some rx → counters.tx_bytes = some tx →
      (_update_wan_metrics s counters now)._last_wan_rx_bytes = some rx ∧
      (_update_wan_metrics s counters now)._last_wan_tx_bytes = some tx ∧
      (_update_wan_metrics s counters now)._last_wan_sample_time = some now) := by
  constructor
  · intro h
    rcases hrx : counters.rx_bytes with _ | rx <;>
      rcases htx : counters.tx_bytes with _ | tx <;>
      simp_all [_update_wan_metrics]
  · intro rx tx hrx htx
    refine ⟨?_, ?_, ?_⟩ <;> simp [_update_wan_metrics, hrx, htx]

/-- Claim C6: for a pair of consecutive WAN samples (the stored baseline
and a strictly later sample), the stored rx and tx deltas each equal
`max 0 (current - previous)` — so a counter decrease yields delta 0,
never a negative value — and the new absolute counter values become the
stored baseline for the next cycle. -/
theorem claim_C6_wan_delta (s : WanState) (rx tx prx ptx pt now : Int)
    (h1 : s._last_wan_rx_bytes = some prx)
    (h2 : s._last_wan_tx_bytes = some ptx)
    (h3 : s._last_wan_sample_time = some pt)
    (helapsed : pt < now) :
    (_update_wan_metrics s ⟨some rx, some tx⟩ now).wan_last_rx_delta_bytes =
      some (max 0 (rx - prx)) ∧
    (_update_wan_metrics s ⟨some rx, some tx⟩ now).wan_last_tx_delta_bytes =
      some (max 0 (tx - ptx)) ∧
    (rx < prx →
      (_update_wan_metrics s ⟨some rx, some tx⟩ now).wan_last_rx_delta_bytes =
        some 0) ∧
    (tx < ptx →
      (_update_wan_metrics s ⟨some rx, some tx⟩ now).wan_last_tx_delta_bytes =
        some 0) ∧
    (_update_wan_metrics s ⟨some rx, some tx⟩ now)._last_wan_rx_bytes = some rx ∧
    (_update_wan_metrics s ⟨some rx, some tx⟩ now)._last_wan_tx_bytes = some tx ∧
    (_update_wan_metrics s ⟨some rx, some tx⟩ now)._last_wan_sample_time =
      some now := by
  have helg : (0 : Int) < now - pt := by omega
  have hrxd : rx < prx → max 0 (rx - prx) = 0 := fun h => by omega
  have htxd : tx < ptx → max 0 (tx - ptx) = 0 := fun h => by omega
  simp only [_update_wan_metrics, h1, h2, h3, if_pos helg]
  refine ⟨by simp, by simp, fun h => by simp [hrxd h], fun h => by simp [htxd h],
    by simp, by simp, by simp⟩



/-- Claim C1: on a tick in which all fetches succeed, the cycle opens
exactly one session, runs the three acquisition commands (DHCP leases,
ARP table, WAN interface query plus byte-counter dump) inside that
single session between the connect and the final disconnect, and
returns both the parsed merged device list and the WAN counter
sample. -/
theorem claim_C1_single_session (w : SSHWorld) (now : Int) (should_ping : Bool)
    (enabled_macs : List String)
    (dhcp_out arp_out ifname_out stats_out : String) (sample : WanCounters)
    (hconn : w.connectOk = true)
    (hdev : w.execOut CMD_DEVICES = some dhcp_out)
    (harp : w.execOut CMD_ARP = some arp_out)
    (hif : w.execOut CMD_WAN_IFNAME = some ifname_out)
    (hstats : w.execOut CMD_PROC_NET_DEV = some stats_out)
    (hfound : parse_wan_counters (pyStrip ifname_out) stats_out = some sample) :
    _get_data_from_router w now should_ping enabled_macs =
      ((merge_devices (_parse_dhcp_leases dhcp_out) (_parse_arp_table arp_out) now,
        some sample),
       SSHEvent.connect ::
         SSHEvent.exec CMD_DEVICES :: SSHEvent.exec CMD_ARP ::
         SSHEvent.exec CMD_WAN_IFNAME :: SSHEvent.exec CMD_PROC_NET_DEV ::
         ((if should_ping then
             ping_events enabled_macs
               (merge_devices (_parse_dhcp_leases dhcp_out) (_parse_arp_table arp_out) now)
           else []) ++ [SSHEvent.disconnect])) := by
  simp [_get_data_from_router, _get_data_from_router_body, get_connected_devices,
    get_wan_counters, _execute_command, hconn, hdev, harp, hif, hstats, hfound]

/-- Claim C3 (amended): the session is always closed in the final
cleanup step (the trace ends with the disconnect event); an exception
that aborts the acquisition sequence — a connect failure, or a failure
of either WAN command — makes the cycle return `([], none)` instead of
propagating; an exception during the device fetch alone is absorbed
inside that step and yields an empty device list, while the WAN sample
of the same cycle may still be present (see the counterexample). -/
theorem claim_C3_amended (w : SSHWorld) (now : Int) (should_ping : Bool)
    (enabled_macs : List String) :
    (∃ evs, (_get_data_from_router w now should_ping enabled_macs).2 =
      evs ++ [SSHEvent.disconnect]) ∧
    (w.connectOk = false →
      (_get_data_from_router w now should_ping enabled_macs).1 = ([], none)) ∧
    ((w.execOut CMD_WAN_IFNAME = none ∨ w.execOut CMD_PROC_NET_DEV = none) →
      (_get_data_from_router w now should_ping enabled_macs).1 = ([], none)) ∧
    (w.connectOk = true → w.execOut CMD_DEVICES = none →
      (_get_data_from_router w now should_ping enabled_macs).1.1 = []) := by
  refine ⟨⟨(_get_data_from_router_body w now should_ping enabled_macs).2, rfl⟩,
    ?_, ?_, ?_⟩
  · intro h
    simp [_get_data_from_router, _get_data_from_router_body, h]
  · intro h
    rcases hconn : w.connectOk with _ | _
    · simp [_get_data_from_router, _get_data_from_router_body, hconn]
    · rcases h with h | h
      · simp [_get_data_from_router, _get_data_from_router_body,
          get_wan_counters, _execute_command, hconn, h]
      · rcases hif : w.execOut CMD_WAN_IFNAME with _ | ifout
        · simp [_get_data_from_router, _get_data_from_router_body,
            get_wan_counters, _execute_command, hconn, hif]
        · simp [_get_data_from_router, _get_data_from_router_body,
            get_wan_counters, _execute_command, hconn, hif, h]
  · intro hconn hdev
    rcases hif : w.execOut CMD_WAN_IFNAME with _ | ifout
    · simp [_get_data_from_router, _get_data_from_router_body,
        get_wan_counters, get_connected_devices, _execute_command, hconn, hif]
    · rcases hstats : w.execOut CMD_PROC_NET_DEV with _ | statsout
      · simp [_get_data_from_router, _get_data_from_router_body,
          get_wan_counters, get_connected_devices, _execute_command,
          hconn, hif, hstats]
      · simp [_get_data_from_router, _get_data_from_router_body,
          get_wan_counters, get_connected_devices, _execute_command,
          hconn, hif, hstats, hdev]

/-- Claim C3 counterexample: in a cycle where executing the DHCP lease
dump raises but the WAN commands succeed, the fetch returns an empty
device list together with a PRESENT WAN sample — refuting the claim
that any exception interrupting data acquisition yields an absent WAN
sample. -/
theorem claim_C3_counterexample :
    dhcpFailWorld.execOut CMD_DEVICES = none ∧
    (_get_data_from_router dhcpFailWorld 0 false []).1.1 = [] ∧
    (_get_data_from_router dhcpFailWorld 0 false []).1.2 ≠ none := by
  refine ⟨by decide, by decide, by decide⟩


/-- Helper: an update with both counters present always stores the new
sample time. -/
lemma wan_update_sample_time (s : WanState) (rx tx now : Int) :
    (_update_wan_metrics s ⟨some rx, some tx⟩ now)._last_wan_sample_time =
      some now := by
  simp [_update_wan_metrics]

/-- Helper: along any run of WAN updates, a state with no stored sample
time has both rates absent. -/
lemma wan_rates_absent_invariant (ticks : List (WanCounters × Int)) :
    ∀ s : WanState,
      (s._last_wan_sample_time = none →
        s.wan_download_mbps = none ∧ s.wan_upload_mbps = none) →
      ((ticks.foldl (fun st t => _update_wan_metrics st t.1 t.2)
          s)._last_wan_sample_time = none →
        (ticks.foldl (fun st t => _update_wan_metrics st t.1 t.2)
            s).wan_download_mbps = none ∧
        (ticks.foldl (fun st t => _update_wan_metrics st t.1 t.2)
            s).wan_upload_mbps = none) := by
  induction ticks with
  | nil => intro s h; exact h
  | cons t ts ih =>
    intro s h
    simp only [List.foldl_cons]
    refine ih (_update_wan_metrics s t.1 t.2) ?_
    rcases hrx : t.1.rx_bytes with _ | rx
    · rcases htx : t.1.tx_bytes with _ | tx <;>
        simpa [_update_wan_metrics, hrx, htx] using h
    · rcases htx : t.1.tx_bytes with _ | tx
      · simpa [_update_wan_metrics, hrx, htx] using h
      · intro habs
        rw [show t.1 = (⟨some rx, some tx⟩ : WanCounters) by
          cases t1 : t.1; simp_all] at habs
        rw [wan_update_sample_time] at habs
        exact Option.noConfusion habs

/-- Claim C7 (amended): the rates are computed as
`delta_bytes * 8 / 1000000 / elapsed_seconds` exactly when a previous
sample exists and the elapsed time is strictly positive; in every other
case (no stored previous sample, non-positive elapsed time, or missing
counters) the stored rates are left UNCHANGED rather than cleared; and
since the rates start absent and are only ever set together with a
sample baseline, any reachable state with no stored previous sample has
both rates absent — in particular both rates are absent on the first
sample. -/
theorem claim_C7_rate_amended :
    (∀ (s : WanState) (rx tx prx ptx pt now : Int),
      s._last_wan_rx_bytes = some prx → s._last_wan_tx_bytes = some ptx →
      s._last_wan_sample_time = some pt → pt < now →
      (_update_wan_metrics s ⟨some rx, some tx⟩ now).wan_download_mbps =
        some (((max 0 (rx - prx) : Int) : ℚ) * 8 / 1000000 / ((now - pt : Int) : ℚ)) ∧
      (_update_wan_metrics s ⟨some rx, some tx⟩ now).wan_upload_mbps =
        some (((max 0 (tx - ptx) : Int) : ℚ) * 8 / 1000000 / ((now - pt : Int) : ℚ))) ∧
    (∀ (s : WanState) (c : WanCounters) (now : Int),
      s._last_wan_sample_time = none →
      (_update_wan_metrics s c now).wan_download_mbps = s.wan_download_mbps ∧
      (_update_wan_metrics s c now).wan_upload_mbps = s.wan_upload_mbps) ∧
    (∀ (s : WanState) (c : WanCounters) (pt now : Int),
      s._last_wan_sample_time = some pt → ¬pt < now →
      (_update_wan_metrics s c now).wan_download_mbps = s.wan_download_mbps ∧
      (_update_wan_metrics s c now).wan_upload_mbps = s.wan_upload_mbps) ∧
    (∀ ticks : List (WanCounters × Int),
      (runWanUpdates ticks)._last_wan_sample_time = none →
      (runWanUpdates ticks).wan_download_mbps = none ∧
      (runWanUpdates ticks).wan_upload_mbps = none) := by
  refine ⟨?_, ?_, ?_, ?_⟩
  · intro s rx tx prx ptx pt now h1 h2 h3 hlt
    simp [_update_wan_metrics, h1, h2, h3, hlt]
  · intro s c now htime
    rcases hrx : c.rx_bytes with _ | rx <;>
      rcases htx : c.tx_bytes with _ | tx <;>
      rcases h1 : s._last_wan_rx_bytes with _ | prx <;>
      rcases h2 : s._last_wan_tx_bytes with _ | ptx <;>
      simp [_update_wan_metrics, hrx, htx, h1, h2, htime]
  · intro s c pt now htime hnlt
    rcases hrx : c.rx_bytes with _ | rx <;>
      rcases htx : c.tx_bytes with _ | tx <;>
      rcases h1 : s._last_wan_rx_bytes with _ | prx <;>
      rcases h2 : s._last_wan_tx_bytes with _ | ptx <;>
      simp [_update_wan_metrics, hrx, htx, h1, h2, htime, hnlt]
  · intro ticks
    exact wan_rates_absent_invariant ticks initWanState (fun _ => ⟨rfl, rfl⟩)

/-- Claim C7 counterexample: after two samples one second apart the
rates are defined; a third sample with zero elapsed time (previous
sample exists, elapsed not strictly positive) leaves the rates PRESENT
(the stale values), refuting the claim that the rate is left absent for
a cycle whose elapsed time is not strictly positive. -/
theorem claim_C7_counterexample :
    c7State._last_wan_sample_time = some 1 ∧
    (_update_wan_metrics c7State ⟨some 2000000, some 2000000⟩ 1).wan_download_mbps
      ≠ none ∧
    (_update_wan_metrics c7State ⟨some 2000000, some 2000000⟩ 1).wan_upload_mbps
      ≠ none := by
  refine ⟨?_, ?_, ?_⟩ <;>
    simp [c7State, _update_wan_metrics, initWanState]


/-- Helper: one pruning step never touches the last-seen map. -/
lemma pruneStep_mac_last_seen (f : String → Bool) (mls : List (String × Int))
    (cut : Int) (acc : CoordinatorPruneState) (e : RegEntry) :
    (pruneStep f mls cut acc e).mac_last_seen = acc.mac_last_seen := by
  unfold pruneStep
  split
  · rfl
  · split
    · split <;> rfl
    · rfl

/-- Helper: the pruning fold never touches the last-seen map. -/
lemma prune_foldl_mac_last_seen (f : String → Bool) (mls : List (String × Int))
    (cut : Int) (l : List RegEntry) :
    ∀ acc : CoordinatorPruneState,
      (l.foldl (pruneStep f mls cut) acc).mac_last_seen = acc.mac_last_seen := by
  induction l with
  | nil => intro acc; rfl
  | cons x xs ih =>
    intro acc
    rw [List.foldl_cons, ih, pruneStep_mac_last_seen]

/-- Helper: one pruning step only removes registry entries. -/
lemma pruneStep_registry_subset (f : String → Bool) (mls : List (String × Int))
    (cut : Int) (acc : CoordinatorPruneState) (e : RegEntry) (r : RegEntry)
    (hr : r ∈ (pruneStep f mls cut acc e).registry) : r ∈ acc.registry := by
  unfold pruneStep at hr
  split at hr
  · exact hr
  · split at hr
    · split at hr
      · exact hr
      · exact (List.mem_filter.mp hr).1
    · exact hr

/-- Helper: one pruning step only removes known devices. -/
lemma pruneStep_known_subset (f : String → Bool) (mls : List (String × Int))
    (cut : Int) (acc : CoordinatorPruneState) (e : RegEntry) (m : String)
    (hm : m ∈ (pruneStep f mls cut acc e).known_devices) :
    m ∈ acc.known_devices := by
  unfold pruneStep at hm
  split at hm
  · exact hm
  · split at hm
    · split at hm
      · exact hm
      · exact (List.mem_filter.mp hm).1
    · exact hm

/-- Helper: one pruning step only removes hostname entries. -/
lemma pruneStep_hostname_subset (f : String → Bool) (mls : List (String × Int))
    (cut : Int) (acc : CoordinatorPruneState) (e : RegEntry)
    (p : String × String) (hp : p ∈ (pruneStep f mls cut acc e).mac_hostname) :
    p ∈ acc.mac_hostname := by
  unfold pruneStep at hp
  split at hp
  · exact hp
  · split at hp
    · split at hp
      · exact hp
      · exact (List.mem_filter.mp hp).1
    · exact hp

/-- Helper: the pruning fold only removes registry entries. -/
lemma prune_foldl_registry_subset (f : String → Bool) (mls : List (String × Int))
    (cut : Int) (l : List RegEntry) :
    ∀ (acc : CoordinatorPruneState) (r : RegEntry),
      r ∈ (l.foldl (pruneStep f mls cut) acc).registry → r ∈ acc.registry := by
  induction l with
  | nil => intro acc r hr; exact hr
  | cons x xs ih =>
    intro acc r hr
    rw [List.foldl_cons] at hr
    exact pruneStep_registry_subset f mls cut acc x r (ih _ r hr)

/-- Helper: the pruning fold only removes known devices. -/
lemma prune_foldl_known_subset (f : String → Bool) (mls : List (String × Int))
    (cut : Int) (l : List RegEntry) :
    ∀ (acc : CoordinatorPruneState) (m : String),
      m ∈ (l.foldl (pruneStep f mls cut) acc).known_devices →
        m ∈ acc.known_devices := by
  induction l with
  | nil => intro acc m hm; exact hm
  | cons x xs ih =>
    intro acc m hm
    rw [List.foldl_cons] at hm
    exact pruneStep_known_subset f mls cut acc x m (ih _ m hm)

/-- Helper: the pruning fold only removes hostname entries. -/
lemma prune_foldl_hostname_subset (f : String → Bool) (mls : List (String × Int))
    (cut : Int) (l : List RegEntry) :
    ∀ (acc : CoordinatorPruneState) (p : String × String),
      p ∈ (l.foldl (pruneStep f mls cut) acc).mac_hostname →
        p ∈ acc.mac_hostname := by
  induction l with
  | nil => intro acc p hp; exact hp
  | cons x xs ih =>
    intro acc p hp
    rw [List.foldl_cons] at hp
    exact pruneStep_hostname_subset f mls cut acc x p (ih _ p hp)

/-- Helper: processing a stale entity whose removal does not fail
removes its entity id from the registry and its MAC from the
known-device set and hostname map. -/
lemma pruneStep_removes (f : String → Bool) (mls : List (String × Int))
    (cut : Int) (acc : CoordinatorPruneState) (e : RegEntry)
    (hu : e.unique_id ≠ "") (hs : prune_stale mls cut e = true)
    (hf : f e.entity_id = false) :
    (∀ r ∈ (pruneStep f mls cut acc e).registry, r.entity_id ≠ e.entity_id) ∧
    (∀ m ∈ (pruneStep f mls cut acc e).known_devices, m ≠ e.unique_id) ∧
    (∀ p ∈ (pruneStep f mls cut acc e).mac_hostname, p.1 ≠ e.unique_id) := by
  unfold pruneStep
  rw [if_neg hu, hs, if_pos rfl, hf]
  refine ⟨fun r hr => ?_, fun m hm => ?_, fun p hp => ?_⟩
  · simpa using (List.mem_filter.mp hr).2
  · simpa using (List.mem_filter.mp hm).2
  · simpa using (List.mem_filter.mp hp).2

/-- Helper: the pruning fold removes every stale, non-failing entity of
the iteration list, wherever it sits in the list. -/
lemma prune_foldl_removes (f : String → Bool) (mls : List (String × Int))
    (cut : Int) (l : List RegEntry) :
    ∀ acc : CoordinatorPruneState, ∀ e ∈ l,
      e.unique_id ≠ "" → prune_stale mls cut e = true →
      f e.entity_id = false →
      (∀ r ∈ (l.foldl (pruneStep f mls cut) acc).registry,
        r.entity_id ≠ e.entity_id) ∧
      (∀ m ∈ (l.foldl (pruneStep f mls cut) acc).known_devices,
        m ≠ e.unique_id) ∧
      (∀ p ∈ (l.foldl (pruneStep f mls cut) acc).mac_hostname,
        p.1 ≠ e.unique_id) := by
  induction l with
  | nil => intro acc e he; exact absurd he (List.not_mem_nil e)
  | cons x xs ih =>
    intro acc e he hu hs hf
    rw [List.foldl_cons]
    rcases List.mem_cons.mp he with rfl | hxs
    · obtain ⟨h1, h2, h3⟩ := pruneStep_removes f mls cut acc e hu hs hf
      refine ⟨fun r hr => h1 r ?_, fun m hm => h2 m ?_, fun p hp => h3 p ?_⟩
      · exact prune_foldl_registry_subset f mls cut xs _ r hr
      · exact prune_foldl_known_subset f mls cut xs _ m hm
      · exact prune_foldl_hostname_subset f mls cut xs _ p hp
    · exact ih _ e hxs hu hs hf

/-- Helper: an entity whose MAC has a last-seen time at or after the
cutoff is not stale. -/
lemma prune_stale_false_of_fresh (mls : List (String × Int)) (cut : Int)
    (e : RegEntry) (t : Int) (hl : mls.lookup e.unique_id = some t)
    (hfresh : ¬t < cut) : prune_stale mls cut e = false := by
  unfold prune_stale
  rw [hl]
  simpa using hfresh

/-- Helper: a registry entry survives a pruning step aimed at a
different entity id or at a non-stale entity. -/
lemma pruneStep_keeps_member (f : String → Bool) (mls : List (String × Int))
    (cut : Int) (acc : CoordinatorPruneState) (x : RegEntry) (e : RegEntry)
    (hne : x.entity_id ≠ e.entity_id ∨ prune_stale mls cut x = false)
    (he : e ∈ acc.registry) : e ∈ (pruneStep f mls cut acc x).registry := by
  unfold pruneStep
  split
  · exact he
  · split
    · split
      · exact he
      · rcases hne with hne | hne
        · exact List.mem_filter.mpr ⟨he, by simpa using fun h => hne h.symm⟩
        · simp_all
    · exact he

/-- Helper: a MAC with a fresh last-seen time survives any single
pruning step in the known-device set. -/
lemma pruneStep_keeps_known (f : String → Bool) (mls : List (String × Int))
    (cut : Int) (acc : CoordinatorPruneState) (x : RegEntry) (mac : String)
    (t : Int) (hl : mls.lookup mac = some t) (hfresh : ¬t < cut)
    (hm : mac ∈ acc.known_devices) :
    mac ∈ (pruneStep f mls cut acc x).known_devices := by
  unfold pruneStep
  split
  · exact hm
  · split
    · split
      · exact hm
      · refine List.mem_filter.mpr ⟨hm, ?_⟩
        simp only [decide_eq_true_eq]
        intro hEq
        have hps : prune_stale mls cut x = false := by
          unfold prune_stale
          rw [← hEq, hl]
          simpa using hfresh
        simp_all
    · exact hm

/-- Helper: a MAC with a fresh last-seen time survives the whole
pruning fold in the known-device set. -/
lemma prune_foldl_keeps_known (f : String → Bool) (mls : List (String × Int))
    (cut : Int) (l : List RegEntry) :
    ∀ (acc : CoordinatorPruneState) (mac : String) (t : Int),
      mls.lookup mac = some t → ¬t < cut → mac ∈ acc.known_devices →
      mac ∈ (l.foldl (pruneStep f mls cut) acc).known_devices := by
  induction l with
  | nil => intro acc mac t _ _ hm; exact hm
  | cons x xs ih =>
    intro acc mac t hl hfresh hm
    rw [List.foldl_cons]
    exact ih _ mac t hl hfresh
      (pruneStep_keeps_known f mls cut acc x mac t hl hfresh hm)

/-- Helper: in a registry without duplicate entity ids, an entry whose
MAC has a fresh last-seen time survives the whole pruning fold. -/
lemma prune_foldl_keeps_fresh_entry (f : String → Bool)
    (mls : List (String × Int)) (cut : Int) (reg0 : List RegEntry)
    (hnodup : (reg0.map RegEntry.entity_id).Nodup) (l : List RegEntry)
    (hsub : ∀ x ∈ l, x ∈ reg0) :
    ∀ (acc : CoordinatorPruneState) (e : RegEntry) (t : Int),
      e ∈ reg0 → mls.lookup e.unique_id = some t → ¬t < cut →
      e ∈ acc.registry → e ∈ (l.foldl (pruneStep f mls cut) acc).registry := by
  induction l with
  | nil => intro acc e t _ _ _ he; exact he
  | cons x xs ih =>
    intro acc e t he0 hl hfresh he
    rw [List.foldl_cons]
    have hx0 : x ∈ reg0 := hsub x (List.mem_cons_self x xs)
    refine ih (fun y hy => hsub y (List.mem_cons_of_mem x hy)) _ e t he0 hl
      hfresh ?_
    refine pruneStep_keeps_member f mls cut acc x e ?_ he
    by_cases hEq : x.entity_id = e.entity_id
    · right
      have hxe : x = e :=
        List.inj_on_of_nodup_map hnodup hx0 he0 hEq
      subst hxe
      exact prune_stale_false_of_fresh mls cut x t hl hfresh
    · exact Or.inl hEq

/-- Claim C9 (amended): pruning leaves the last-seen timestamp map
untouched; every device-tracker entry of this platform whose MAC has no
stored last-seen time or one older than the 30-day cutoff, and whose
removal does not fail, is removed from the registry, its MAC dropped
from the known-device set and from the hostname map — regardless of
failures on other entities (failure isolation); and every device whose
last-seen time is at or after the cutoff is retained in the
known-device set and (for a registry without duplicate entity ids) in
the registry. -/
theorem claim_C9_prune_amended (fails : String → Bool)
    (st : CoordinatorPruneState) (now : Int) :
    (_async_prune_stale_entities fails st now).mac_last_seen =
      st.mac_last_seen ∧
    (∀ e ∈ _iter_our_device_tracker_entries st.registry,
      e.unique_id ≠ "" →
      prune_stale st.mac_last_seen (now - prune_threshold_seconds) e = true →
      fails e.entity_id = false →
      (∀ r ∈ (_async_prune_stale_entities fails st now).registry,
        r.entity_id ≠ e.entity_id) ∧
      (∀ m ∈ (_async_prune_stale_entities fails st now).known_devices,
        m ≠ e.unique_id) ∧
      (∀ p ∈ (_async_prune_stale_entities fails st now).mac_hostname,
        p.1 ≠ e.unique_id)) ∧
    (∀ (mac : String) (t : Int),
      st.mac_last_seen.lookup mac = some t →
      ¬t < now - prune_threshold_seconds →
      (mac ∈ st.known_devices →
        mac ∈ (_async_prune_stale_entities fails st now).known_devices) ∧
      ((st.registry.map RegEntry.entity_id).Nodup →
        ∀ e ∈ st.registry, e.unique_id = mac →
          e ∈ (_async_prune_stale_entities fails st now).registry)) := by
  refine ⟨?_, ?_, ?_⟩
  · exact prune_foldl_mac_last_seen fails st.mac_last_seen _ _ st
  · intro e he hu hs hf
    exact prune_foldl_removes fails st.mac_last_seen _ _ st e he hu hs hf
  · intro mac t hl hfresh
    constructor
    · intro hm
      exact prune_foldl_keeps_known fails st.mac_last_seen _ _ st mac t hl
        hfresh hm
    · intro hnodup e he heq
      refine prune_foldl_keeps_fresh_entry fails st.mac_last_seen _ st.registry
        hnodup _ (fun x hx => (List.mem_filter.mp hx).1) st e t he ?_ hfresh he
      rw [heq]; exact hl

/-- Claim C9 counterexample: a device last seen 31 days ago is stale
and pruning removes its registry entity and hostname entry, yet its MAC
is STILL present in the in-memory last-seen map afterwards — refuting
the claim that a stale device is dropped from the in-memory presence
state (which comprises both the last-seen and the hostname maps). -/
theorem claim_C9_counterexample :
    prune_stale staleState.mac_last_seen (pruneNow - prune_threshold_seconds)
      { entity_id := "device_tracker.laptop", unique_id := "AA:BB:CC:DD:EE:FF",
        domain := "device_tracker", platform := DOMAIN } = true ∧
    (_async_prune_stale_entities (fun _ => false) staleState pruneNow).registry
      = [] ∧
    (_async_prune_stale_entities (fun _ => false) staleState
      pruneNow).mac_hostname = [] ∧
    (_async_prune_stale_entities (fun _ => false) staleState
      pruneNow).mac_last_seen.lookup "AA:BB:CC:DD:EE:FF" = some 0 := by
  refine ⟨by decide, by decide, by decide, by decide⟩


/-- Witness for C1: the healthy example cycle evaluated concretely. -/
theorem claim_C1_witness :
    _get_data_from_router exampleWorld 100 false [] =
      ((merge_devices
          (_parse_dhcp_leases "0 AA:BB:CC:DD:EE:FF 10.0.0.5 laptop x")
          (_parse_arp_table
            "IP address HW type Flags HW address Mask Device\n10.0.0.5 0x1 0x2 aa:bb:cc:dd:ee:ff * br0")
          100,
        some { rx_bytes := some 1000, tx_bytes := some 500 }),
       [SSHEvent.connect, SSHEvent.exec CMD_DEVICES, SSHEvent.exec CMD_ARP,
        SSHEvent.exec CMD_WAN_IFNAME, SSHEvent.exec CMD_PROC_NET_DEV,
        SSHEvent.disconnect]) :=
  claim_C1_single_session exampleWorld 100 false []
    "0 AA:BB:CC:DD:EE:FF 10.0.0.5 laptop x"
    "IP address HW type Flags HW address Mask Device\n10.0.0.5 0x1 0x2 aa:bb:cc:dd:ee:ff * br0"
    "eth0\n" "eth0: 1000 1 0 0 0 0 0 0 500 1 0 0 0 0 0 0"
    { rx_bytes := some 1000, tx_bytes := some 500 }
    rfl (by decide) (by decide) (by decide) (by decide) (by decide)

/-- Witness for C2: a disconnected device seen 10 seconds ago is Home
under a grace period of 11 seconds and Away under a grace period of
exactly 10 seconds. -/
theorem claim_C2_witness :
    tracker_is_connected [c2Device] "AA:BB:CC:DD:EE:FF" 20 11 = true ∧
    tracker_is_connected [c2Device] "AA:BB:CC:DD:EE:FF" 20 10 = false := by
  constructor
  · exact (claim_C2_presence_grace [c2Device] "AA:BB:CC:DD:EE:FF" 20 11
      c2Device (by decide)).1.mpr (Or.inr ⟨10, rfl, by decide⟩)
  · exact (claim_C2_presence_grace [c2Device] "AA:BB:CC:DD:EE:FF" 20 10
      c2Device (by decide)).2 rfl (by decide)

/-- Witness for C3 (amended): the DHCP-failure cycle still ends with a
disconnect and returns an empty device list. -/
theorem claim_C3_witness :
    (∃ evs, (_get_data_from_router dhcpFailWorld 0 false []).2 =
      evs ++ [SSHEvent.disconnect]) ∧
    (_get_data_from_router dhcpFailWorld 0 false []).1.1 = [] := by
  obtain ⟨h1, -, -, h4⟩ := claim_C3_amended dhcpFailWorld 0 false []
  exact ⟨h1, h4 rfl (by decide)⟩

/-- Witness for C4: the merged example device satisfies both merge
invariants. -/
theorem claim_C4_witness :
    exDevice ∈ merge_devices [exLease] [exArp] 100 ∧
    (exDevice.is_connected = true ↔
      ∃ a ∈ [exArp], pyUpper a.mac = exDevice.mac) ∧
    (∃ r ∈ [exLease], exDevice.mac = pyUpper r.mac ∧
      exDevice.hostname = r.hostname ∧ exDevice.ip = r.ip) := by
  have hmem : exDevice ∈ merge_devices [exLease] [exArp] 100 := by decide
  obtain ⟨h1, h2⟩ := claim_C4_merge_invariant [exLease] [exArp] 100 exDevice hmem
  exact ⟨hmem, h1, h2⟩

/-- Witness for C5: a daily accumulator carrying marker 2024-01-01 and
value 5 resets on 2024-01-02 to exactly the cycle delta in GB. -/
theorem claim_C5_witness :
    (({ _value_gb := some 5, _last_period_marker := some "2024-01-01" } :
        AccumState)._last_period_marker ≠
      some (_current_period_marker "daily"
        { year := 2024, month := 1, day := 2 })) ∧
    (_handle_coordinator_update
        { _value_gb := some 5, _last_period_marker := some "2024-01-01" }
        "daily" "download" { year := 2024, month := 1, day := 2 }
        (some 999000) (some 1))._value_gb =
      some (((if ("download" : String) = "download" then
          (some (999000 : Int)).getD 0 else (some (1 : Int)).getD 0) : ℚ)
        / 1024 ^ 3) := by
  have h := claim_C5_period_rollover
    { _value_gb := some 5, _last_period_marker := some "2024-01-01" }
    "daily" "download" { year := 2024, month := 1, day := 2 }
    (some 999000) (some 1) (by decide)
  exact ⟨by decide, h.1⟩

/-- Witness for C6: deltas and baseline after a sample 10 seconds past
the stored baseline, with a decreasing tx counter. -/
theorem claim_C6_witness :
    (_update_wan_metrics wanBaselineState
      { rx_bytes := some 1000000, tx_bytes := some 400 } 10).wan_last_rx_delta_bytes =
        some (max 0 (1000000 - 1000)) ∧
    (_update_wan_metrics wanBaselineState
      { rx_bytes := some 1000000, tx_bytes := some 400 } 10).wan_last_tx_delta_bytes =
        some (max 0 (400 - 500)) ∧
    ((1000000 : Int) < 1000 →
      (_update_wan_metrics wanBaselineState
        { rx_bytes := some 1000000, tx_bytes := some 400 } 10).wan_last_rx_delta_bytes =
          some 0) ∧
    ((400 : Int) < 500 →
      (_update_wan_metrics wanBaselineState
        { rx_bytes := some 1000000, tx_bytes := some 400 } 10).wan_last_tx_delta_bytes =
          some 0) ∧
    (_update_wan_metrics wanBaselineState
      { rx_bytes := some 1000000, tx_bytes := some 400 } 10)._last_wan_rx_bytes =
        some 1000000 ∧
    (_update_wan_metrics wanBaselineState
      { rx_bytes := some 1000000, tx_bytes := some 400 } 10)._last_wan_tx_bytes =
        some 400 ∧
    (_update_wan_metrics wanBaselineState
      { rx_bytes := some 1000000, tx_bytes := some 400 } 10)._last_wan_sample_time =
        some 10 :=
  claim_C6_wan_delta wanBaselineState 1000000 400 1000 500 0 10
    rfl rfl rfl (by decide)

/-- Witness for C7 (amended): the computed rate formula on a concrete
sample, and absent rates on the initial state. -/
theorem claim_C7_witness :
    (_update_wan_metrics wanBaselineState
      { rx_bytes := some 1000000, tx_bytes := some 400 } 10).wan_download_mbps =
        some (((max 0 (1000000 - 1000) : Int) : ℚ) * 8 / 1000000 /
          ((10 - 0 : Int) : ℚ)) ∧
    (runWanUpdates []).wan_download_mbps = none ∧
    (runWanUpdates []).wan_upload_mbps = none := by
  obtain ⟨h1, -, -, h4⟩ := claim_C7_rate_amended
  obtain ⟨ha, hb⟩ := h4 [] rfl
  exact ⟨(h1 wanBaselineState 1000000 400 1000 500 0 10 rfl rfl rfl
    (by decide)).1, ha, hb⟩

/-- Witness for C8: a sample missing rx mutates nothing; a complete
sample advances the whole baseline triple. -/
theorem claim_C8_witness :
    _update_wan_metrics initWanState
      { rx_bytes := none, tx_bytes := some 5 } 3 = initWanState ∧
    (_update_wan_metrics initWanState
      { rx_bytes := some 7, tx_bytes := some 5 } 3)._last_wan_rx_bytes = some 7 ∧
    (_update_wan_metrics initWanState
      { rx_bytes := some 7, tx_bytes := some 5 } 3)._last_wan_tx_bytes = some 5 ∧
    (_update_wan_metrics initWanState
      { rx_bytes := some 7, tx_bytes := some 5 } 3)._last_wan_sample_time =
        some 3 := by
  obtain ⟨h1, -⟩ := claim_C8_wan_frame initWanState
    { rx_bytes := none, tx_bytes := some 5 } 3
  obtain ⟨-, h2⟩ := claim_C8_wan_frame initWanState
    { rx_bytes := some 7, tx_bytes := some 5 } 3
  obtain ⟨a, b, c⟩ := h2 7 5 rfl rfl
  exact ⟨h1 (Or.inl rfl), a, b, c⟩

/-- Witness for C9 (amended): pruning the stale example state keeps the
last-seen map and removes the stale entity, while the fresh example
device is retained. -/
theorem claim_C9_witness :
    (_async_prune_stale_entities (fun _ => false) staleState
        pruneNow).mac_last_seen = staleState.mac_last_seen ∧
    (∀ r ∈ (_async_prune_stale_entities (fun _ => false) staleState
        pruneNow).registry, r.entity_id ≠ "device_tracker.laptop") ∧
    "CC:DD:EE:FF:00:11" ∈ (_async_prune_stale_entities (fun _ => false)
        freshState pruneNow).known_devices := by
  obtain ⟨h1, h2, -⟩ :=
    claim_C9_prune_amended (fun _ => false) staleState pruneNow
  obtain ⟨-, -, h3⟩ :=
    claim_C9_prune_amended (fun _ => false) freshState pruneNow
  refine ⟨h1, ?_, ?_⟩
  · exact fun r hr =>
      (h2 staleEntry (by decide) (by decide) (by decide) rfl).1 r hr
  · exact (h3 "CC:DD:EE:FF:00:11" (pruneNow - 86400) (by decide)
      (by decide)).1 (by decide)

/-- Witness for C10: a lease line with hostname field `*` gets the
synthesized hostname. -/
theorem claim_C10_witness :
    ∃ r : DhcpRecord,
      parse_lease_line "1234 aa:bb:cc:dd:ee:ff 10.0.0.9 * 01:aa" = some r ∧
      r.hostname = "device_aa_bb_cc_dd_ee_ff" := by
  obtain ⟨r, hr, -, -, hsyn, -⟩ :=
    claim_C10_hostname_synthesis "1234 aa:bb:cc:dd:ee:ff 10.0.0.9 * 01:aa"
      (by decide) (by decide)
  refine ⟨r, hr, ?_⟩
  rw [hsyn (by decide)]
  decide

end AsusWrtMerlin

